import Mathlib

/-!
Verification of the target-side featurization subsystem
(`rasa/core/featurizers/target_featurizer.py`).

The Python source is embedded shallowly: exceptions become `Except PyErr`,
dynamically typed expressions that mix ints and strings become `PyVal` with
Python's operator semantics, and attribute or name lookups that fail in the
source are embedded as the corresponding error.  External collaborators that
live in other modules of the repository (Domain, StateFeaturizer, the
interpreter, EntityTagSpec, the BILOU prefixes) are modelled from the spec.
-/

/-- The Python exceptions that the embedded code can raise. `runtimeError` is
the configuration-guard error raised by the readiness guards (the source raises
a bare RuntimeError, which realizes the specification's ConfigurationError). -/
inductive PyErr where
  | typeError
  | nameError
  | attributeError
  | runtimeError
deriving DecidableEq, Repr

/-- A dynamically typed Python value restricted to the two types that occur in
the tag-id comprehensions: integers and strings. -/
inductive PyVal where
  | intV (n : Int)
  | strV (s : String)
deriving DecidableEq, Repr

/-- Python string repetition `s * n` (negative counts give the empty string). -/
def strRepeat (s : String) (n : Int) : String :=
  String.join (List.replicate n.toNat s)

/-- Python `+` on int/str values: int+int adds, str+str concatenates, a mixed
application raises TypeError. -/
def pyAdd : PyVal → PyVal → Except PyErr PyVal
  | PyVal.intV a, PyVal.intV b => Except.ok (PyVal.intV (a + b))
  | PyVal.strV a, PyVal.strV b => Except.ok (PyVal.strV (a ++ b))
  | _, _ => Except.error PyErr.typeError

/-- Python `*` on int/str values: int*int multiplies, str*int repeats the
string, str*str raises TypeError. -/
def pyMul : PyVal → PyVal → Except PyErr PyVal
  | PyVal.intV a, PyVal.intV b => Except.ok (PyVal.intV (a * b))
  | PyVal.strV s, PyVal.intV n => Except.ok (PyVal.strV (strRepeat s n))
  | PyVal.intV n, PyVal.strV s => Except.ok (PyVal.strV (strRepeat s n))
  | PyVal.strV _, PyVal.strV _ => Except.error PyErr.typeError

/-- Lexicographic comparison of character lists by code point, matching
Python's ordering on strings. -/
def charsLe : List Char → List Char → Bool
  | [], _ => true
  | _ :: _, [] => false
  | a :: as, b :: bs =>
    if a.toNat < b.toNat then true
    else if b.toNat < a.toNat then false
    else charsLe as bs

/-- String comparison used by `sorted` on Python strings. -/
def strLe (a b : String) : Bool := charsLe a.data b.data

/-- Insert a string into an already sorted list (helper of `sortStrings`). -/
def insortStr (s : String) : List String → List String
  | [] => [s]
  | t :: ts => if strLe s t then s :: t :: ts else t :: insortStr s ts

/-- Python's `sorted` on a list of strings: deterministic lexicographic
insertion sort. -/
def sortStrings : List String → List String
  | [] => []
  | s :: ss => insortStr s (sortStrings ss)

/-- Truthiness of an `Optional[List[Text]]` field: None and the empty list are
falsy, a non-empty list is truthy. -/
def pyTruthyList : Option (List String) → Bool
  | none => false
  | some l => !l.isEmpty

/-- Python's `x in xs` on an `Optional[List[Text]]`: membership test on a
list, TypeError when the value is None. -/
def pyContains (x : String) : Option (List String) → Except PyErr Bool
  | none => Except.error PyErr.typeError
  | some l => Except.ok (l.contains x)

/-- Whether an embedded computation finished without raising. -/
def isOkE {α : Type} : Except PyErr α → Bool
  | Except.ok _ => true
  | Except.error _ => false

/-- Modelled from the spec: the read-only Domain snapshot consumed by
`setup`, providing the free-text action subset (`action_texts`) and the
entity vocabulary (`entity_states`). -/
structure Domain where
  action_texts : List String
  entity_states : List String
deriving DecidableEq, Repr

/-- Modelled from the spec: the external state featurizer; only its own
readiness is observable from this subsystem. -/
structure StateFeaturizer where
  ready : Bool
deriving DecidableEq, Repr

/-- Modelled from the spec: an opaque natural-language interpreter handle. -/
structure Interp where
  idx : Nat
deriving DecidableEq, Repr

/-- Modelled from the spec: the EntityTagSpec value object with a tag name,
the tag-to-id table, its inverse, and the tag count. -/
structure EntityTagSpec where
  tag_name : String
  tags_to_ids : List (String × Int)
  ids_to_tags : List (Int × String)
  num_tags : Nat
deriving DecidableEq, Repr

/-- Modelled from the spec: the sub-state representation of an action,
either as free text or as a symbolic label. -/
inductive SubState where
  | textRep (action : String)
  | labelRep (action : String)
deriving DecidableEq, Repr

/-- Modelled from the spec: `state_utils.create_substate_from_action` builds a
free-text representation when `as_text` holds and a symbolic-label
representation otherwise. -/
def create_substate_from_action (action : String) (asText : Bool) : SubState :=
  if asText then SubState.textRep action else SubState.labelRep action

/-- The base-contract guard `raise_if_not_ready`, parametrized by the outcome
of the instance's `is_ready()` call: raises RuntimeError when readiness is
false, propagates an exception raised by `is_ready` itself, does nothing
otherwise. -/
def raise_if_not_ready (isReadyOutcome : Except PyErr Bool) : Except PyErr Unit :=
  match isReadyOutcome with
  | Except.error e => Except.error e
  | Except.ok b => if b then Except.ok () else Except.error PyErr.runtimeError

/-- The base-contract guard `raise_if_ready`: raises RuntimeError when the
instance reports ready.  Defined by the contract but invoked by no concrete
`setup` in the source. -/
def raise_if_ready (isReadyOutcome : Except PyErr Bool) : Except PyErr Unit :=
  match isReadyOutcome with
  | Except.error e => Except.error e
  | Except.ok b => if b then Except.error PyErr.runtimeError else Except.ok ()

/-- Instance attributes of `InterpreterFeaturesForActions`. -/
structure InterpreterFeaturesForActions where
  state_featurizer : Option StateFeaturizer
  action_texts : Option (List String)
deriving DecidableEq, Repr

/-- `InterpreterFeaturesForActions.setup`: assigns `domain.action_texts` and
the given state featurizer to the instance fields, unconditionally
overwriting whatever was stored before. -/
def InterpreterFeaturesForActions.setup (_self : InterpreterFeaturesForActions)
    (domain : Domain) (sf : StateFeaturizer) : InterpreterFeaturesForActions :=
  { state_featurizer := some sf, action_texts := some domain.action_texts }

/-- `InterpreterFeaturesForActions.is_ready`: the source reads the bare name
`state_featurizer`, which resolves to the imported module
`rasa.core.featurizers.state_featurizer`, not to the instance field
`self.state_featurizer`.  The module object is never None, so the first
conjunct always holds; `moduleIsReady` is the outcome of the module-level
attribute call `state_featurizer.is_ready()` (the module is outside this
file's source, so that outcome is a parameter); the final conjunct is the
truthiness of `self.action_texts`. -/
def InterpreterFeaturesForActions.is_ready (moduleIsReady : Except PyErr Bool)
    (self : InterpreterFeaturesForActions) : Except PyErr Bool :=
  match moduleIsReady with
  | Except.error e => Except.error e
  | Except.ok b => Except.ok (b && pyTruthyList self.action_texts)

/-- `InterpreterFeaturesForActions.featurize`: guard with
`raise_if_not_ready`, then resolve the interpreter through
`self.state_featurizer` (AttributeError when that field is None), then build
the action sub-state (free text iff the action is in `self.action_texts`) and
delegate to the state featurizer.  `resolve` and `delegate` stand for the
external interpreter-resolution and sub-state-featurization calls. -/
def InterpreterFeaturesForActions.featurize (F : Type)
    (moduleIsReady : Except PyErr Bool)
    (resolve : Option Interp → Except PyErr Interp)
    (delegate : SubState → Interp → Except PyErr F)
    (self : InterpreterFeaturesForActions) (action : String)
    (interpreter : Option Interp) : Except PyErr F :=
  match raise_if_not_ready (InterpreterFeaturesForActions.is_ready moduleIsReady self) with
  | Except.error e => Except.error e
  | Except.ok _ =>
    match self.state_featurizer with
    | none => Except.error PyErr.attributeError
    | some _ =>
      match resolve interpreter with
      | Except.error e => Except.error e
      | Except.ok itp =>
        match pyContains action self.action_texts with
        | Except.error e => Except.error e
        | Except.ok inTexts => delegate (create_substate_from_action action inTexts) itp

/-- Instance attributes of `ActionsToIndices`. -/
structure ActionsToIndices where
  state_featurizer : Option StateFeaturizer
  action_texts : Option (List String)
deriving DecidableEq, Repr

/-- `ActionsToIndices.setup`: same assignments as the action featurizer,
unconditionally overwriting the stored configuration. -/
def ActionsToIndices.setup (_self : ActionsToIndices)
    (domain : Domain) (sf : StateFeaturizer) : ActionsToIndices :=
  { state_featurizer := some sf, action_texts := some domain.action_texts }

/-- `ActionsToIndices.is_ready`: textually identical to the action
featurizer's version, with the same module-level name lookup in place of the
instance field. -/
def ActionsToIndices.is_ready (moduleIsReady : Except PyErr Bool)
    (self : ActionsToIndices) : Except PyErr Bool :=
  match moduleIsReady with
  | Except.error e => Except.error e
  | Except.ok b => Except.ok (b && pyTruthyList self.action_texts)

/-- `ActionsToIndices.featurize`: the source body is the bare ellipsis
statement, so the call performs no readiness check, raises nothing and
returns None. -/
def ActionsToIndices.featurize (_self : ActionsToIndices) (_action : String)
    (_interpreter : Option Interp) : Except PyErr (Option (List (String × Int))) :=
  Except.ok none

/-- The fixed ordered BILOU prefix list. Modelled from the spec: Begin,
Inside, Last, Unit, each prefixed to the entity name with a dash. -/
def BILOU_PREFIXES : List String := ["B-", "I-", "L-", "U-"]

/-- The BILOU branch of the tag-id dict comprehension.  The source iterates
`for tag, idx_1 in enumerate(entities)`, so `tag` is bound to the position
(an int) and `idx_1` to the entity name (a string); the key is the f-string
of the prefix and `tag`, and the value is `idx_1 * len(BILOU_PREFIXES) +
idx_2 + 1`, evaluated with Python's dynamic operator semantics. -/
def bilouTagMapping (entities : List String) : Except PyErr (List (PyVal × PyVal)) :=
  ((entities.enum.flatMap fun ti => BILOU_PREFIXES.enum.map fun ip => (ti, ip))).mapM
    fun x =>
      match x with
      | ((tag, idx1), (idx2, px)) => do
        let v1 ← pyMul (PyVal.strV idx1) (PyVal.intV (Int.ofNat BILOU_PREFIXES.length))
        let v2 ← pyAdd v1 (PyVal.intV (Int.ofNat idx2))
        let v3 ← pyAdd v2 (PyVal.intV 1)
        Except.ok (PyVal.strV (px ++ toString tag), v3)

/-- The plain branch of the tag-id dict comprehension.  The source iterates
`for tag, idx in enumerate(entities)`, so the dict key `tag` is the position
(an int) and the value is `idx + 1` where `idx` is the entity name (a
string), evaluated with Python's dynamic operator semantics. -/
def plainTagMapping (entities : List String) : Except PyErr (List (PyVal × PyVal)) :=
  entities.enum.mapM fun ti =>
    match ti with
    | (tag, idx) => do
      let v ← pyAdd (PyVal.strV idx) (PyVal.intV 1)
      Except.ok (PyVal.intV (Int.ofNat tag), v)

/-- Instance attributes of `EntityDataFeaturizer`.  The constructor and
`setup` only ever assign `bilou_tagging` and `encoding_spec`. -/
structure EntityDataFeaturizer where
  bilou_tagging : Bool
  encoding_spec : Option EntityTagSpec
deriving DecidableEq, Repr

/-- `EntityDataFeaturizer.setup`: sorts the domain's entity vocabulary, runs
the branch of the tag-id comprehension selected by `bilou_tagging`, and then
executes `tag_id_index_mapping[NO_ENTITY_TAG] = 0`.  The bare name
`NO_ENTITY_TAG` is neither imported nor defined in the module (the imports
bring in `ENTITY_TAGS`, `bilou_utils`, `BILOU_PREFIXES` and others, but not
`NO_ENTITY_TAG`), so when the comprehension itself does not raise, this
statement raises NameError and the construction of the EntityTagSpec below
it is never reached. -/
def EntityDataFeaturizer.setup (self : EntityDataFeaturizer) (domain : Domain) :
    Except PyErr EntityDataFeaturizer :=
  match (if self.bilou_tagging
         then bilouTagMapping (sortStrings domain.entity_states)
         else plainTagMapping (sortStrings domain.entity_states)) with
  | Except.error e => Except.error e
  | Except.ok _tag_id_index_mapping => Except.error PyErr.nameError

/-- `EntityDataFeaturizer.is_ready`: the encoding spec is present. -/
def EntityDataFeaturizer.is_ready (self : EntityDataFeaturizer) : Bool :=
  self.encoding_spec.isSome

/-- `EntityDataFeaturizer.featurize`: the guard is
`not entity_data or not self.encoding_specs or self.encoding_specs.num_tags < 2`.
When `entity_data` is empty the first disjunct short-circuits and the empty
mapping is returned; otherwise the attribute `self.encoding_specs` is
evaluated, and since the instance only ever defines `encoding_spec`, the
lookup raises AttributeError, making the interpreter call and everything
after it unreachable. -/
def EntityDataFeaturizer.featurize (_self : EntityDataFeaturizer)
    (entity_data : List (String × String)) : Except PyErr (List (String × List Int)) :=
  if entity_data.isEmpty then Except.ok []
  else Except.error PyErr.attributeError

/-- A concrete target item stored inside the composite featurizer. -/
inductive TargetItemInstance where
  | actionsItem (x : InterpreterFeaturesForActions)
  | indicesItem (x : ActionsToIndices)
  | entityItem (x : EntityDataFeaturizer)
deriving DecidableEq, Repr

/-- Instance attributes of the composite `TargetsFeaturizer`: the two
optional sub-featurizers assigned by the constructor. -/
structure TargetsFeaturizer where
  action_featurizer : Option TargetItemInstance
  entity_featurizer : Option TargetItemInstance
deriving DecidableEq, Repr

/-- The methods the `TargetsFeaturizer` class body defines in the source:
only the constructor.  The class has no base class, so no other method is
inherited. -/
def targetsFeaturizerClassMethods : List String := ["__init__"]

/-- Method dispatch on a `TargetsFeaturizer` instance: looking up a method
that the class does not define raises AttributeError. -/
def TargetsFeaturizer.invokeMethod (_self : TargetsFeaturizer) (method : String) :
    Except PyErr Unit :=
  if targetsFeaturizerClassMethods.contains method then Except.ok ()
  else Except.error PyErr.attributeError

/-- A sentinel-only EntityTagSpec, used to build an already-configured
entity featurizer in concrete statements. -/
def specSentinelOnly : EntityTagSpec :=
  { tag_name := "entity",
    tags_to_ids := [("no entity", 0)],
    ids_to_tags := [(0, "no entity")],
    num_tags := 1 }

/-- Helper: `EntityDataFeaturizer.setup` never returns normally.  Every run
either raises TypeError inside the tag-id comprehension or reaches the
assignment through the unbound name `NO_ENTITY_TAG` and raises NameError. -/
theorem edf_setup_isOk_false (self : EntityDataFeaturizer) (d : Domain) :
    isOkE (self.setup d) = false := by
  unfold EntityDataFeaturizer.setup
  cases h : (if self.bilou_tagging
             then bilouTagMapping (sortStrings d.entity_states)
             else plainTagMapping (sortStrings d.entity_states)) <;>
    simp [h, isOkE]

/-- Claim C1: with bilou_tagging=false, setup on entities ["city","date"]
should produce the table mapping "city" to 1, "date" to 2 and the sentinel to
0 with num_tags 3.  The code instead unpacks enumerate backwards, evaluates
the string-plus-int expression "city" + 1 as the first dict value, and raises
TypeError. -/
theorem c1_setup_plain_raises_typeerror :
    EntityDataFeaturizer.setup
        { bilou_tagging := false, encoding_spec := none }
        { action_texts := [], entity_states := ["city", "date"] }
      = Except.error PyErr.typeError := by
  rfl

/-- Claim C2: with bilou_tagging=true, setup on entities ["city","date"]
should produce the nine BILOU tags with ids 1..8 plus the sentinel at 0.  The
code instead evaluates "city" * 4 + 0 as the first dict value, a
string-plus-int addition, and raises TypeError. -/
theorem c2_setup_bilou_raises_typeerror :
    EntityDataFeaturizer.setup
        { bilou_tagging := true, encoding_spec := none }
        { action_texts := [], entity_states := ["city", "date"] }
      = Except.error PyErr.typeError := by
  rfl

/-- Claim C3: featurize should return the empty mapping, without raising,
when the entity data is empty, when the encoding spec is absent, or when
num_tags < 2.  Only the empty-data disjunct behaves that way; with non-empty
data the guard reads the undefined attribute `encoding_specs` and raises
AttributeError, both on an unconfigured instance and on a configured one
whose num_tags is 1. -/
theorem c3_featurize_guard_behavior :
    EntityDataFeaturizer.featurize
        { bilou_tagging := false, encoding_spec := none } [] = Except.ok []
  ∧ EntityDataFeaturizer.featurize
        { bilou_tagging := false, encoding_spec := none } [("text", "hello")]
      = Except.error PyErr.attributeError
  ∧ EntityDataFeaturizer.featurize
        { bilou_tagging := false, encoding_spec := some specSentinelOnly } [("text", "hello")]
      = Except.error PyErr.attributeError :=
  ⟨rfl, rfl, rfl⟩

/-- Claim C4: is_ready of the action featurizer and of the action indexer is
claimed to hold exactly when the instance's own state featurizer is present,
itself ready, and the free-text subset is non-empty.  In the code both
methods read the module-level name `state_featurizer` instead of the
instance field, so their result is identical on any two instances that
differ only in their own state featurizer — in particular an instance whose
own featurizer is absent is judged exactly like one whose featurizer is
present and ready. -/
theorem c4_is_ready_ignores_instance_featurizer (moduleIsReady : Except PyErr Bool)
    (sf1 sf2 : Option StateFeaturizer) (ats : Option (List String)) :
    InterpreterFeaturesForActions.is_ready moduleIsReady
        { state_featurizer := sf1, action_texts := ats }
      = InterpreterFeaturesForActions.is_ready moduleIsReady
        { state_featurizer := sf2, action_texts := ats }
  ∧ ActionsToIndices.is_ready moduleIsReady
        { state_featurizer := sf1, action_texts := ats }
      = ActionsToIndices.is_ready moduleIsReady
        { state_featurizer := sf2, action_texts := ats } :=
  ⟨rfl, rfl⟩

/-- Claim C5: raise_if_not_ready raises the configuration error exactly when
is_ready reports false and does nothing when it reports true; and featurize
on an action featurizer whose is_ready reports false raises that error
before any delegation to the state featurizer, whatever the resolver and
delegate would do. -/
theorem c5_guard_before_featurize :
    (∀ (b : Bool), raise_if_not_ready (Except.ok b)
        = if b then Except.ok () else Except.error PyErr.runtimeError)
  ∧ (∀ (s : EntityDataFeaturizer),
      raise_if_not_ready (Except.ok (EntityDataFeaturizer.is_ready s))
        = if EntityDataFeaturizer.is_ready s then Except.ok ()
          else Except.error PyErr.runtimeError)
  ∧ (∀ (F : Type) (moduleIsReady : Except PyErr Bool)
        (resolve : Option Interp → Except PyErr Interp)
        (delegate : SubState → Interp → Except PyErr F)
        (self : InterpreterFeaturesForActions) (action : String)
        (interpreter : Option Interp),
      InterpreterFeaturesForActions.is_ready moduleIsReady self = Except.ok false →
        InterpreterFeaturesForActions.featurize F moduleIsReady resolve delegate
            self action interpreter
          = Except.error PyErr.runtimeError) := by
  refine ⟨fun b => by cases b <;> rfl,
    fun s => by cases h : s.is_ready <;> simp [h, raise_if_not_ready], ?_⟩
  intro F m resolve delegate self action interpreter h
  unfold InterpreterFeaturesForActions.featurize
  rw [h]
  rfl

/-- Witness for claim C5's theorem at a concrete unready instance: the module
reports ready but the instance's free-text subset is empty, so is_ready is
false and featurize raises the configuration error. -/
theorem c5_guard_before_featurize_witness :
    InterpreterFeaturesForActions.is_ready (Except.ok true)
        { state_featurizer := none, action_texts := some [] } = Except.ok false
  ∧ InterpreterFeaturesForActions.featurize Nat (Except.ok true)
        (fun _ => Except.ok { idx := 0 }) (fun _ _ => Except.ok 0)
        { state_featurizer := none, action_texts := some [] } "greet" none
      = Except.error PyErr.runtimeError :=
  ⟨rfl,
   c5_guard_before_featurize.2.2 Nat (Except.ok true)
     (fun _ => Except.ok { idx := 0 }) (fun _ _ => Except.ok 0)
     { state_featurizer := none, action_texts := some [] } "greet" none rfl⟩

/-- Claim C6: the composite is claimed to expose a single setup/featurize
entry point fanning out to the present sub-featurizers.  The class body in
the source defines only the constructor and has no base class, so looking up
setup or featurize on any instance raises AttributeError: no such entry
point exists. -/
theorem c6_composite_has_no_entry_point (self : TargetsFeaturizer) :
    TargetsFeaturizer.invokeMethod self "setup" = Except.error PyErr.attributeError
  ∧ TargetsFeaturizer.invokeMethod self "featurize" = Except.error PyErr.attributeError :=
  ⟨rfl, rfl⟩

/-- Claim C7: the EntityTagSpec resulting from setup is claimed to satisfy
the sentinel/bijectivity/num_tags invariant.  No such spec is ever produced:
setup fails on every domain, raising TypeError or NameError before the
EntityTagSpec construction. -/
theorem c7_setup_never_produces_spec (self : EntityDataFeaturizer) (d : Domain) :
    isOkE (self.setup d) = false :=
  edf_setup_isOk_false self d

/-- Claim C8: repeated setup calls on the same domain are claimed to produce
identical tag-to-id assignments thanks to the deterministic sort.  The sort
is indeed deterministic — the two permuted presentations of the same
vocabulary below give identical outcomes — but that outcome is always an
exception (TypeError on a non-empty vocabulary, NameError on an empty one),
so no tag-to-id assignment is ever produced. -/
theorem c8_setup_deterministic_but_raises :
    EntityDataFeaturizer.setup
        { bilou_tagging := false, encoding_spec := none }
        { action_texts := [], entity_states := ["date", "city"] }
      = EntityDataFeaturizer.setup
        { bilou_tagging := false, encoding_spec := none }
        { action_texts := [], entity_states := ["city", "date"] }
  ∧ EntityDataFeaturizer.setup
        { bilou_tagging := false, encoding_spec := none }
        { action_texts := [], entity_states := ["city"] }
      = Except.error PyErr.typeError
  ∧ EntityDataFeaturizer.setup
        { bilou_tagging := false, encoding_spec := none }
        { action_texts := [], entity_states := [] }
      = Except.error PyErr.nameError :=
  ⟨rfl, rfl, rfl⟩

/-- Claim C9: the action indexer's instance-level featurize is a stub: on
every instance, action and interpreter it performs no readiness check,
raises nothing, and returns None rather than a feature mapping. -/
theorem c9_indexer_featurize_stub (self : ActionsToIndices) (action : String)
    (interpreter : Option Interp) :
    ActionsToIndices.featurize self action interpreter = Except.ok none :=
  rfl

/-- Counterexample to claim C10 as stated: an already-configured entity
featurizer (its encoding spec present, so is_ready holds) whose setup call
nevertheless raises TypeError — setup does not "never raise when the
instance is already configured". -/
theorem c10_counterexample_configured_setup_raises :
    EntityDataFeaturizer.is_ready
        { bilou_tagging := false, encoding_spec := some specSentinelOnly } = true
  ∧ EntityDataFeaturizer.setup
        { bilou_tagging := false, encoding_spec := some specSentinelOnly }
        { action_texts := [], entity_states := ["city"] }
      = Except.error PyErr.typeError :=
  ⟨rfl, rfl⟩

/-- Claim C10 as amended: no concrete setup consults the configured state
(raise_if_ready is never invoked).  The action featurizer's and the action
indexer's setup never raise and silently overwrite both fields with values
from the new domain and state featurizer, configured or not.  The entity
featurizer's setup is likewise independent of the previously captured
configuration, but it raises TypeError or NameError on every call, so it
never completes an overwrite. -/
theorem c10_amended_setup_overwrites :
    (∀ (self : InterpreterFeaturesForActions) (d : Domain) (sf : StateFeaturizer),
      InterpreterFeaturesForActions.setup self d sf
        = { state_featurizer := some sf, action_texts := some d.action_texts })
  ∧ (∀ (self : ActionsToIndices) (d : Domain) (sf : StateFeaturizer),
      ActionsToIndices.setup self d sf
        = { state_featurizer := some sf, action_texts := some d.action_texts })
  ∧ (∀ (b : Bool) (s1 s2 : Option EntityTagSpec) (d : Domain),
      EntityDataFeaturizer.setup { bilou_tagging := b, encoding_spec := s1 } d
        = EntityDataFeaturizer.setup { bilou_tagging := b, encoding_spec := s2 } d)
  ∧ (∀ (self : EntityDataFeaturizer) (d : Domain), isOkE (self.setup d) = false) :=
  ⟨fun _ _ _ => rfl, fun _ _ _ => rfl, fun _ _ _ _ => rfl,
   fun self d => edf_setup_isOk_false self d⟩
